import Mathlib

/-!
Verification of the request-forwarding gateway of `inference-system-go`.

The repository has two servers implementing the `Predict` RPC:
  * `src/unnamed/part_000` — the full server with Prometheus metrics and
    graceful shutdown (namespace `Core` below);
  * `src/cmd/server/main.go` — an older variant without metrics and with the
    empty-input check commented out (namespace `Cmd` below).

The embedding is shallow: JSON payloads are modelled by an inductive `Json`
type whose numbers carry their literal decimal token (no floating-point
arithmetic happens anywhere in the program — numbers only pass through), a
downstream interaction by a `DownstreamResult` oracle, and Go's
`context.Context` by an abstract identifier threaded through the calls.
Go's `encoding/json` error text for a failed decode of the downstream body
is modelled by `jsonParseErrText`, a body-derived text mirroring the
library's: a syntax error names an offending character taken from the body
itself, a type error names the JSON kind of the body.
-/

/-- JSON values. Numbers keep their literal token (e.g. "0.9"): the program
performs no arithmetic on them, they are decoded and re-encoded only. -/
inductive Json where
  | null
  | bool (b : Bool)
  | num (tok : String)
  | str (s : String)
  | arr (xs : List Json)
  | obj (fields : List (String × Json))
deriving Repr

mutual

/-- Rendering of a JSON value to text, as Go's `encoding/json` emits it
(string escaping is not modelled; no claim exercises it). -/
def Json.render : Json → String
  | .null => "null"
  | .bool true => "true"
  | .bool false => "false"
  | .num tok => tok
  | .str s => "\"" ++ s ++ "\""
  | .arr xs => "[" ++ Json.renderElems xs ++ "]"
  | .obj fs => "\x7b" ++ Json.renderFields fs ++ "\x7d"

def Json.renderElems : List Json → String
  | [] => ""
  | [x] => x.render
  | x :: xs => x.render ++ "," ++ Json.renderElems xs

def Json.renderFields : List (String × Json) → String
  | [] => ""
  | [(k, v)] => "\"" ++ k ++ "\":" ++ v.render
  | (k, v) :: fs => "\"" ++ k ++ "\":" ++ v.render ++ "," ++ Json.renderFields fs

end

/-- A raw HTTP body: either text that is not valid JSON, or a JSON value. -/
inductive Body where
  | invalid (raw : String)
  | valid (j : Json)
deriving Repr

/-- The text of a body, as interpolated by `%s` in the Go error messages. -/
def Body.text : Body → String
  | .invalid raw => raw
  | .valid j => j.render

/-- gRPC status codes used by the program. -/
inductive GrpcCode where
  | ok
  | invalidArgument
  | unavailable
  | internal
  | unknown
deriving Repr, DecidableEq

/-- `String()` of a gRPC code, as `%v` formatting of a status error uses it. -/
def GrpcCode.render : GrpcCode → String
  | .ok => "OK"
  | .invalidArgument => "InvalidArgument"
  | .unavailable => "Unavailable"
  | .internal => "Internal"
  | .unknown => "Unknown"

/-- A gRPC status error: code plus human-readable message
(`status.Errorf(code, msg)`). -/
structure GrpcError where
  code : GrpcCode
  msg : String
deriving Repr, DecidableEq

/-- `%v` formatting of a gRPC status error, as produced by
`fmt` on a `*status.Error` value. -/
def GrpcError.render (e : GrpcError) : String :=
  "rpc error: code = " ++ e.code.render ++ " desc = " ++ e.msg

/-- `json.Unmarshal(b, &x)` for `x : []float64`, element side: every element
of the array must be a JSON number. -/
def numTokens : List Json → Option (List String)
  | [] => some []
  | Json.num tok :: xs => (numTokens xs).map (tok :: ·)
  | _ => none

/-- The inbound `inputData` bytes: either not valid JSON at all, or a JSON
value (whose shape `json.Unmarshal` then checks). -/
inductive InputBytes where
  | notJson
  | valid (j : Json)
deriving Repr

/-- `json.Unmarshal(req.GetInputData(), &inputArray)` for
`inputArray : []float64`: succeeds iff the bytes are a JSON array of numbers
(or JSON `null`, which Go treats as a no-op and leaves the slice nil,
i.e. of length zero). -/
def unmarshalInput : InputBytes → Option (List String)
  | .notJson => none
  | .valid Json.null => some []
  | .valid (Json.arr xs) => numTokens xs
  | .valid _ => none

/-- Go's `json.Marshal` of the `[]float64` field `Output`: a nil slice
(absent `output` field) marshals to `null`, otherwise to a JSON array. -/
def marshalFloats : Option (List String) → String
  | none => "null"
  | some toks => "[" ++ String.intercalate "," toks ++ "]"

/-- The struct `InputData` (`model_name`, `input`). -/
structure InputData where
  modelName : String
  input : List String
deriving Repr, DecidableEq

/-- `json.Marshal` of an `InputData` value: the outbound JSON body
`\x7b"model_name": ..., "input": [...]\x7d` (it cannot fail on this type;
the `err != nil` branch after it in the source is dead). -/
def marshalInputData (d : InputData) : Json :=
  Json.obj [("model_name", Json.str d.modelName),
            ("input", Json.arr (d.input.map Json.num))]

/-- The struct `APIResponse` decoded from the downstream body.
`output = none` models a nil slice (field absent or JSON null). -/
structure APIResponse where
  modelName : String
  output : Option (List String)
  status : String
deriving Repr, DecidableEq

/-- Last occurrence of a key in a JSON object, as Go's decoder lets later
duplicate keys overwrite earlier ones. -/
def lookupField (fs : List (String × Json)) (k : String) : Option Json :=
  ((fs.reverse).find? (fun p => p.1 == k)).map (·.2)

/-- Decoding a JSON field into a Go `string`: absent or `null` leaves the
zero value `""`; any non-string value is a type error. -/
def decodeStrField : Option Json → Option String
  | none => some ""
  | some Json.null => some ""
  | some (Json.str s) => some s
  | some _ => none

/-- Decoding a JSON field into a Go `[]float64`: absent or `null` leaves the
slice nil; an array must contain only numbers; anything else is a type
error. -/
def decodeNumsField : Option Json → Option (Option (List String))
  | none => some none
  | some Json.null => some none
  | some (Json.arr xs) => (numTokens xs).map some
  | some _ => none

/-- `json.Unmarshal(body, &apiResponse)`: the body must be a JSON object
(unknown fields ignored, known fields type-checked) or JSON `null` (a no-op
leaving the zero value). -/
def unmarshalAPIResponse : Body → Option APIResponse
  | .invalid _ => none
  | .valid Json.null => some ⟨"", none, ""⟩
  | .valid (Json.obj fs) => do
      let mn ← decodeStrField (lookupField fs "model_name")
      let out ← decodeNumsField (lookupField fs "output")
      let st ← decodeStrField (lookupField fs "status")
      some ⟨mn, out, st⟩
  | .valid _ => none

/-- The JSON kind name `encoding/json` uses in its type-mismatch errors. -/
def Json.kindName : Json → String
  | .null => "null"
  | .bool _ => "bool"
  | .num _ => "number"
  | .str _ => "string"
  | .arr _ => "array"
  | .obj _ => "object"

/-- Go's `encoding/json` error text for a failed `Unmarshal` of a downstream
body into `APIResponse`, as `%v` interpolates it. The text is derived from
the body, as the real library's is: a syntax error names the offending
character of a malformed body (modelled as its first character — exact for
one-byte bodies and whenever the first byte already offends), and a
type-mismatch error names the JSON kind of a well-formed body of the wrong
shape (for a mistyped field inside an object Go additionally names the
struct field; the model keeps the kind only). Either way the text depends
on the body, and for a one-byte malformed body it contains the whole raw
body verbatim. -/
def jsonParseErrText : Body → String
  | .invalid raw =>
      "invalid character \x27" ++ raw.take 1 ++
        "\x27 looking for beginning of value"
  | .valid j =>
      "json: cannot unmarshal " ++ j.kindName ++
        " into Go value of type main.APIResponse"

/-- Behaviour of the (single) downstream HTTP interaction of a call:
`httpClient.Do` fails, `io.ReadAll` of the body fails, a response with a
status code and body arrives, or the call panics at runtime
(`panicked` models a handler-body panic, the only non-total code region). -/
inductive DownstreamResult where
  | transportError (errText : String)
  | readError (errText : String)
  | response (statusCode : Nat) (body : Body)
  | panicked (info : String)
deriving Repr

/-- The `http.Client` of the server (only its timeout matters to the core). -/
structure HttpClient where
  timeoutSeconds : Nat
deriving Repr, DecidableEq

/-- The client constructed in `main`: `&http.Client\x7bTimeout: 10 * time.Second\x7d`. -/
def mainHttpClient : HttpClient := ⟨10⟩

/-- An outbound HTTP request as issued by `sendDataToAPI`: built with
`http.NewRequestWithContext(ctx, "POST", apiURL, body)` and executed by the
server's `httpClient` (whose timeout bounds the call). `ctx` is the abstract
identifier of the caller's cancellation/deadline context. -/
structure HttpRequest where
  ctx : Nat
  method : String
  url : String
  timeoutSeconds : Nat
  body : Json
deriving Repr

/-- The fixed downstream URL. -/
def apiURL : String := "http://localhost:8080/predict"

/-- Outcome of `sendDataToAPI`. -/
inductive SendOutcome where
  | success (r : APIResponse)
  | failure (e : GrpcError)
  | panicked (info : String)
deriving Repr, DecidableEq

namespace Core

/-- `(s *server) sendDataToAPI` of `src/unnamed/part_000`, returning the
list of outbound requests issued together with the outcome.
`json.Marshal(requestBody)` and `http.NewRequestWithContext` cannot fail on
these fixed arguments, so their error branches are dead. -/
def sendDataToAPI (ctx : Nat) (client : HttpClient) (inputData : InputData)
    (ds : DownstreamResult) : List HttpRequest × SendOutcome :=
  let req : HttpRequest :=
    { ctx := ctx, method := "POST", url := apiURL,
      timeoutSeconds := client.timeoutSeconds,
      body := marshalInputData inputData }
  match ds with
  | .panicked info => ([req], .panicked info)
  | .transportError e =>
      ([req], .failure ⟨.unavailable, "Failed to reach external API: " ++ e⟩)
  | .readError e =>
      ([req], .failure ⟨.unavailable,
        "failed to read response from external API: " ++ e⟩)
  | .response sc body =>
      if sc < 200 ∨ sc ≥ 300 then
        -- Map 4xx to InvalidArgument, 5xx to Internal/Unavailable
        if sc ≥ 400 ∧ sc < 500 then
          ([req], .failure ⟨.invalidArgument,
            "API returned status " ++ toString sc ++ ": " ++ body.text⟩)
        else
          ([req], .failure ⟨.internal,
            "API returned status " ++ toString sc ++ ": " ++ body.text⟩)
      else
        match unmarshalAPIResponse body with
        | none => ([req], .failure ⟨.internal,
            "Failed to parse external API response: " ++ jsonParseErrText body⟩)
        | some r => ([req], .success r)

end Core

/-- The RPC reply `PredictResponse` (`outputData` bytes, `status`). -/
structure PredictResponse where
  outputData : String
  status : String
deriving Repr, DecidableEq

/-- Terminal outcome of a `Predict` invocation as the caller sees it. -/
inductive PredictOutcome where
  | reply (r : PredictResponse)
  | err (e : GrpcError)
  | panicked (info : String)
deriving Repr, DecidableEq

/-- A Prometheus metric event emitted by the handler: one histogram
observation (`requestDuration.WithLabelValues(method).Observe(...)`) or one
counter increment (`requestCount.WithLabelValues(method, label).Inc()`). -/
inductive MetricEvent where
  | observe (method : String)
  | inc (method : String) (label : String)
deriving Repr, DecidableEq

/-- The visible effects of one `Predict` invocation of the metrics server:
the caller-visible outcome, the outbound requests issued and the metric
events recorded. -/
structure PredictRun where
  reply : PredictOutcome
  calls : List HttpRequest
  metrics : List MetricEvent
deriving Repr

namespace Core

/-- The body of `(s *server) Predict` of `src/unnamed/part_000`, up to but
not including the deferred metrics: caller-visible outcome, outbound calls,
and the value of `statusLabel` at exit (the value the deferred closure
reads). On a panic inside `sendDataToAPI` the assignment
`statusLabel = "api-error"` never runs, so the label is still `"ok"`. -/
def predictBody (ctx : Nat) (client : HttpClient) (modelName : String)
    (inputData : InputBytes) (ds : DownstreamResult) :
    PredictOutcome × List HttpRequest × String :=
  match unmarshalInput inputData with
  | none =>
      (.err ⟨.invalidArgument, "input_data must be a JSON array of numbers"⟩,
       [], "bad-input")
  | some arr =>
      if arr.isEmpty then
        (.err ⟨.invalidArgument, "input data cannot be empty"⟩,
         [], "empty-input")
      else
        let (calls, res) := sendDataToAPI ctx client ⟨modelName, arr⟩ ds
        match res with
        | .panicked info => (.panicked info, calls, "ok")
        | .failure e =>
            (.err ⟨.unavailable,
              "failed to call external API: " ++ e.render⟩,
             calls, "api-error")
        | .success r =>
            -- json.Marshal(apiResponse.Output) cannot fail: that
            -- internal-error branch is dead.
            (.reply ⟨marshalFloats r.output, r.status⟩, calls, "ok")

/-- `(s *server) Predict` of `src/unnamed/part_000`. The `defer` registered
on entry records exactly one latency observation and one labelled counter
increment on every exit path, panics included. -/
def Predict (ctx : Nat) (client : HttpClient) (modelName : String)
    (inputData : InputBytes) (ds : DownstreamResult) : PredictRun :=
  let b := predictBody ctx client modelName inputData ds
  { reply := b.1, calls := b.2.1,
    metrics := [.observe "Predict", .inc "Predict" b.2.2] }

end Core

/-- The visible effects of one `Predict` invocation of the cmd/server
variant (it records no metrics). -/
structure CmdRun where
  reply : PredictOutcome
  calls : List HttpRequest
deriving Repr

namespace Cmd

/-- `(s *server) sendDataToAPI` of `src/cmd/server/main.go`. Differences
from the metrics server: the `Do`/`ReadAll` failure messages carry no `%v`
detail, and the non-2xx branch returns a plain `fmt.Errorf` error (no gRPC
status attached; gRPC surfaces such an error as `Unknown`, modelled by code
`unknown`). `json.Marshal` and `http.NewRequestWithContext` cannot fail on
these fixed arguments, so their error branches are dead. -/
def sendDataToAPI (ctx : Nat) (client : HttpClient) (inputData : InputData)
    (ds : DownstreamResult) : List HttpRequest × SendOutcome :=
  let req : HttpRequest :=
    { ctx := ctx, method := "POST", url := apiURL,
      timeoutSeconds := client.timeoutSeconds,
      body := marshalInputData inputData }
  match ds with
  | .panicked info => ([req], .panicked info)
  | .transportError _ =>
      ([req], .failure ⟨.unavailable, "Failed to reach external API"⟩)
  | .readError _ =>
      ([req], .failure ⟨.unavailable,
        "failed to read response from external API"⟩)
  | .response sc body =>
      if sc < 200 ∨ sc ≥ 300 then
        ([req], .failure ⟨.unknown,
          "API returned status " ++ toString sc ++ ": " ++ body.text⟩)
      else
        match unmarshalAPIResponse body with
        | none => ([req], .failure ⟨.internal,
            "Failed to parse external API response"⟩)
        | some r => ([req], .success r)

/-- `(s *server) Predict` of `src/cmd/server/main.go`. The emptiness check
on the decoded input array is commented out in this variant, so an empty
array is forwarded downstream. -/
def Predict (ctx : Nat) (client : HttpClient) (modelName : String)
    (inputData : InputBytes) (ds : DownstreamResult) : CmdRun :=
  match unmarshalInput inputData with
  | none =>
      { reply := .err ⟨.invalidArgument,
          "input_data must be a JSON array of numbers"⟩, calls := [] }
  | some arr =>
      let (calls, res) := sendDataToAPI ctx client ⟨modelName, arr⟩ ds
      match res with
      | .panicked info => { reply := .panicked info, calls := calls }
      | .failure _ =>
          { reply := .err ⟨.unavailable, "failed to call external API"⟩,
            calls := calls }
      | .success r =>
          -- json.Marshal(apiResponse.Output) cannot fail: the
          -- "output empty" branch is dead.
          { reply := .reply ⟨marshalFloats r.output, r.status⟩,
            calls := calls }

end Cmd

/-- Events of the shutdown sequence of `main` in `src/unnamed/part_000`. -/
inductive ShutdownEvent where
  | signalReceived
  | httpShutdownStart (graceSeconds : Nat)
  | httpShutdownDone
  | grpcGracefulStart (graceSeconds : Nat)
  | grpcStopped (forced : Bool)
  | processExit
deriving Repr, DecidableEq

/-- The shutdown sequence executed by `main` of `src/unnamed/part_000`
after `<-stop` receives an interrupt/SIGTERM: `httpSrv.Shutdown` is called
with a 10-second-timeout context and awaited on the main goroutine (if the
grace expires the error is only logged; no force-close of the HTTP
connections happens), and only after it returns is `grpcServer.GracefulStop`
launched and raced against a 10-second timer; `grpcTimedOut` selects which
arm of that `select` wins, the timer arm escalating to the forced
`grpcServer.Stop()`. -/
def mainShutdownTrace (grpcTimedOut : Bool) : List ShutdownEvent :=
  [.signalReceived,
   .httpShutdownStart 10,
   .httpShutdownDone,
   .grpcGracefulStart 10,
   .grpcStopped grpcTimedOut,
   .processExit]

/-- Recognizes the initiation of the RPC-listener graceful stop. -/
def isGrpcStart : ShutdownEvent → Bool
  | .grpcGracefulStart _ => true
  | _ => false

/-- Recognizes the completion of the metrics/health-listener shutdown. -/
def isHttpDone : ShutdownEvent → Bool
  | .httpShutdownDone => true
  | _ => false

/-- Position of the first event satisfying `p` in a shutdown trace. -/
def eventIdx (t : List ShutdownEvent) (p : ShutdownEvent → Bool) : Nat :=
  t.findIdx p

/-- The gRPC code of the error returned to the caller, if any. -/
def PredictRun.errCode (r : PredictRun) : Option GrpcCode :=
  match r.reply with
  | .err e => some e.code
  | _ => none

/-- The gRPC code of the error returned to the caller, if any. -/
def CmdRun.errCode (r : CmdRun) : Option GrpcCode :=
  match r.reply with
  | .err e => some e.code
  | _ => none

/-- The caller-visible view used to compare the two `Predict`
implementations: the full reply on success, the status code alone on error
(the human-readable messages differ between the variants), and the panic
value on panic. -/
inductive CallerView where
  | reply (r : PredictResponse)
  | errCode (c : GrpcCode)
  | panicked (info : String)
deriving Repr, DecidableEq

/-- Project a `Predict` outcome to its caller-visible view. -/
def PredictOutcome.view : PredictOutcome → CallerView
  | .reply r => .reply r
  | .err e => .errCode e.code
  | .panicked info => .panicked info

/-- Recognizes a latency histogram observation. -/
def MetricEvent.isObserve : MetricEvent → Bool
  | .observe _ => true
  | _ => false

/-- Recognizes an outcome-labelled counter increment. -/
def MetricEvent.isInc : MetricEvent → Bool
  | .inc _ _ => true
  | _ => false

/-- The status-code-driven gRPC code chosen by `sendDataToAPI` of
`src/unnamed/part_000` for a non-2xx downstream status: 4xx maps to
`InvalidArgument`, everything else out of range to `Internal`. -/
def apiStatusCode (sc : Nat) : GrpcCode :=
  if sc ≥ 400 ∧ sc < 500 then .invalidArgument else .internal

/-- The sanitized status-code-driven message built by `sendDataToAPI` for a
non-2xx downstream status (it embeds the downstream body). -/
def apiStatusMsg (sc : Nat) (b : Body) : String :=
  "API returned status " ++ toString sc ++ ": " ++ b.text

/-- The caller-visible message `Predict` of `src/unnamed/part_000` builds
when the downstream interaction failed with error `e`
(`status.Errorf(codes.Unavailable, "failed to call external API: %v", err)`). -/
def wrapMsg (e : GrpcError) : String :=
  "failed to call external API: " ++ e.render

/-- Recognizes the arrival of the termination signal. -/
def isSignal : ShutdownEvent → Bool
  | .signalReceived => true
  | _ => false

/-- Recognizes the initiation of the metrics/health-listener shutdown. -/
def isHttpStart : ShutdownEvent → Bool
  | .httpShutdownStart _ => true
  | _ => false

/-- Recognizes the RPC listener having stopped. -/
def isGrpcStopped : ShutdownEvent → Bool
  | .grpcStopped _ => true
  | _ => false

/-- Recognizes the process exit. -/
def isExit : ShutdownEvent → Bool
  | .processExit => true
  | _ => false

/-- The part of a `sendDataToAPI` outcome that both server variants agree
on: the decoded response on success, the bare fact of failure (their error
codes and messages differ), or the panic value. -/
inductive SendView where
  | success (r : APIResponse)
  | failure
  | panicked (info : String)
deriving Repr, DecidableEq

/-- Project a `sendDataToAPI` outcome to its variant-independent view. -/
def SendOutcome.view : SendOutcome → SendView
  | .success r => .success r
  | .failure _ => .failure
  | .panicked info => .panicked info

/-! ## Helper lemmas -/

/-- `sendDataToAPI` of the metrics server issues exactly the one request it
builds, whatever the downstream does. -/
theorem Core.sendDataToAPI_calls_eq (ctx : Nat) (client : HttpClient)
    (d : InputData) (ds : DownstreamResult) :
    (Core.sendDataToAPI ctx client d ds).1 =
      [{ ctx := ctx, method := "POST", url := apiURL,
         timeoutSeconds := client.timeoutSeconds,
         body := marshalInputData d }] := by
  cases ds <;> simp only [Core.sendDataToAPI] <;> (repeat' split) <;> rfl

/-- `sendDataToAPI` of the cmd/server variant issues exactly the one request
it builds, whatever the downstream does. -/
theorem Cmd.sendDataToAPICmd_calls_eq (ctx : Nat) (client : HttpClient)
    (d : InputData) (ds : DownstreamResult) :
    (Cmd.sendDataToAPI ctx client d ds).1 =
      [{ ctx := ctx, method := "POST", url := apiURL,
         timeoutSeconds := client.timeoutSeconds,
         body := marshalInputData d }] := by
  cases ds <;> simp only [Cmd.sendDataToAPI] <;> (repeat' split) <;> rfl

/-! ## Claims -/

/-- C3: every `Predict` invocation of the metrics server records exactly one
latency histogram observation and exactly one outcome-labelled counter
increment, on the success path and on every failure path, and also when the
handler body panics (the deferred closure runs on panic unwinding too). -/
theorem C3_one_observation_one_increment (ctx : Nat) (client : HttpClient)
    (mn : String) (inp : InputBytes) (ds : DownstreamResult) :
    (∃ label, (Core.Predict ctx client mn inp ds).metrics =
      [MetricEvent.observe "Predict", MetricEvent.inc "Predict" label]) ∧
    (Core.Predict ctx client mn inp ds).metrics.countP MetricEvent.isObserve = 1 ∧
    (Core.Predict ctx client mn inp ds).metrics.countP MetricEvent.isInc = 1 := by
  refine ⟨⟨(Core.predictBody ctx client mn inp ds).2.2, rfl⟩, ?_, ?_⟩ <;>
    simp [Core.Predict, List.countP_cons, List.countP_nil,
      MetricEvent.isObserve, MetricEvent.isInc]

/-- C2: an inbound request whose `inputData` is not decodable as a JSON
array of numbers, or decodes to an empty array, is rejected by the metrics
server's `Predict` with `InvalidArgument` and no downstream request is
issued. -/
theorem C2_bad_or_empty_input_rejected (ctx : Nat) (client : HttpClient)
    (mn : String) (inp : InputBytes) (ds : DownstreamResult)
    (h : unmarshalInput inp = none ∨ unmarshalInput inp = some []) :
    (Core.Predict ctx client mn inp ds).errCode = some GrpcCode.invalidArgument ∧
    (Core.Predict ctx client mn inp ds).calls = [] := by
  rcases h with h | h <;>
    simp [Core.Predict, Core.predictBody, PredictRun.errCode, h]

/-- Witness for C2 at the concrete input `[]` (the spec's scenario). -/
theorem C2_witness :
    (unmarshalInput (InputBytes.valid (Json.arr [])) = none ∨
      unmarshalInput (InputBytes.valid (Json.arr [])) = some []) ∧
    ((Core.Predict 0 mainHttpClient "m" (InputBytes.valid (Json.arr []))
      (DownstreamResult.response 200 (Body.valid Json.null))).errCode =
        some GrpcCode.invalidArgument ∧
     (Core.Predict 0 mainHttpClient "m" (InputBytes.valid (Json.arr []))
      (DownstreamResult.response 200 (Body.valid Json.null))).calls = []) :=
  ⟨Or.inr rfl,
   C2_bad_or_empty_input_rejected 0 mainHttpClient "m"
     (InputBytes.valid (Json.arr []))
     (DownstreamResult.response 200 (Body.valid Json.null)) (Or.inr rfl)⟩

/-- With undecodable or empty input the metrics server issues no downstream
request. -/
theorem Core.Predict_calls_nil_of_invalid (ctx : Nat) (client : HttpClient)
    (mn : String) (inp : InputBytes) (ds : DownstreamResult)
    (h : unmarshalInput inp = none ∨ unmarshalInput inp = some []) :
    (Core.Predict ctx client mn inp ds).calls = [] := by
  rcases h with h | h <;> simp [Core.Predict, Core.predictBody, h]

/-- With decodable non-empty input the metrics server issues exactly the one
downstream request carrying the marshalled `(model_name, input)` payload. -/
theorem Core.Predict_calls_of_valid (ctx : Nat) (client : HttpClient)
    (mn : String) (inp : InputBytes) (ds : DownstreamResult)
    (arr : List String)
    (h : unmarshalInput inp = some arr) (hne : arr ≠ []) :
    (Core.Predict ctx client mn inp ds).calls =
      [{ ctx := ctx, method := "POST", url := apiURL,
         timeoutSeconds := client.timeoutSeconds,
         body := marshalInputData ⟨mn, arr⟩ }] := by
  have hne' : arr.isEmpty = false := by
    cases arr
    · exact absurd rfl hne
    · rfl
  have hfst := Core.sendDataToAPI_calls_eq ctx client ⟨mn, arr⟩ ds
  rcases hs : Core.sendDataToAPI ctx client ⟨mn, arr⟩ ds with ⟨calls, res⟩
  rw [hs] at hfst
  cases res <;> simp [Core.Predict, Core.predictBody, h, hne', hs, hfst]

/-- C5: for every call of the metrics server's `Predict` with valid
(decodable, non-empty) input, exactly one outbound downstream request is
issued — no retries — and its JSON body is the marshalled
`(model_name, input)` of the inbound request. -/
theorem C5_single_downstream_call (ctx : Nat) (client : HttpClient)
    (mn : String) (inp : InputBytes) (ds : DownstreamResult)
    (arr : List String)
    (h : unmarshalInput inp = some arr) (hne : arr ≠ []) :
    (Core.Predict ctx client mn inp ds).calls =
      [{ ctx := ctx, method := "POST", url := apiURL,
         timeoutSeconds := client.timeoutSeconds,
         body := marshalInputData ⟨mn, arr⟩ }] :=
  Core.Predict_calls_of_valid ctx client mn inp ds arr h hne

/-- Witness for C5 at a concrete valid input. -/
theorem C5_witness :
    unmarshalInput (InputBytes.valid (Json.arr [Json.num "1.0"])) = some ["1.0"] ∧
    (["1.0"] : List String) ≠ [] ∧
    (Core.Predict 7 mainHttpClient "m" (InputBytes.valid (Json.arr [Json.num "1.0"]))
      (DownstreamResult.response 200 (Body.valid Json.null))).calls =
      [{ ctx := 7, method := "POST", url := apiURL, timeoutSeconds := 10,
         body := marshalInputData ⟨"m", ["1.0"]⟩ }] :=
  ⟨rfl, by decide,
   C5_single_downstream_call 7 mainHttpClient "m"
     (InputBytes.valid (Json.arr [Json.num "1.0"]))
     (DownstreamResult.response 200 (Body.valid Json.null))
     ["1.0"] rfl (by decide)⟩

/-- C7: every outbound downstream request of the metrics server (whose
`httpClient` is the one `main` builds with a 10-second timeout) is
constructed with the caller's cancellation/deadline context, and the
client-side 10-second timeout bounds the call. -/
theorem C7_context_and_timeout (ctx : Nat) (mn : String) (inp : InputBytes)
    (ds : DownstreamResult) (c : HttpRequest)
    (hc : c ∈ (Core.Predict ctx mainHttpClient mn inp ds).calls) :
    c.ctx = ctx ∧ c.timeoutSeconds = 10 := by
  rcases hin : unmarshalInput inp with _ | arr
  · rw [Core.Predict_calls_nil_of_invalid ctx mainHttpClient mn inp ds
      (Or.inl hin)] at hc
    exact absurd hc (List.not_mem_nil c)
  · rcases arr with _ | ⟨a, l⟩
    · rw [Core.Predict_calls_nil_of_invalid ctx mainHttpClient mn inp ds
        (Or.inr hin)] at hc
      exact absurd hc (List.not_mem_nil c)
    · rw [Core.Predict_calls_of_valid ctx mainHttpClient mn inp ds (a :: l)
        hin (by simp)] at hc
      cases List.mem_singleton.mp hc
      exact ⟨rfl, rfl⟩

/-- Witness for C7: the single request of a concrete run carries the
caller's context and the 10-second client timeout. -/
theorem C7_witness :
    (⟨7, "POST", apiURL, 10, marshalInputData ⟨"m", ["1.0"]⟩⟩ : HttpRequest) ∈
      (Core.Predict 7 mainHttpClient "m"
        (InputBytes.valid (Json.arr [Json.num "1.0"]))
        (DownstreamResult.response 200 (Body.valid Json.null))).calls ∧
    ((⟨7, "POST", apiURL, 10, marshalInputData ⟨"m", ["1.0"]⟩⟩ : HttpRequest).ctx = 7 ∧
     (⟨7, "POST", apiURL, 10, marshalInputData ⟨"m", ["1.0"]⟩⟩ : HttpRequest).timeoutSeconds = 10) :=
  ⟨List.Mem.head _,
   C7_context_and_timeout 7 "m" (InputBytes.valid (Json.arr [Json.num "1.0"]))
     (DownstreamResult.response 200 (Body.valid Json.null))
     ⟨7, "POST", apiURL, 10, marshalInputData ⟨"m", ["1.0"]⟩⟩
     (List.Mem.head _)⟩

/-- Success path of the metrics server: an in-range downstream status with a
decodable body yields a reply re-encoding the downstream `output` and
passing `status` through verbatim. -/
theorem Core.Predict_success_reply (ctx : Nat) (client : HttpClient)
    (mn : String) (inp : InputBytes) (arr : List String)
    (sc : Nat) (body : Body) (r : APIResponse)
    (hin : unmarshalInput inp = some arr) (hne : arr ≠ [])
    (hsc : 200 ≤ sc ∧ sc < 300)
    (hr : unmarshalAPIResponse body = some r) :
    (Core.Predict ctx client mn inp (DownstreamResult.response sc body)).reply =
      PredictOutcome.reply ⟨marshalFloats r.output, r.status⟩ := by
  have hne' : arr.isEmpty = false := by
    cases arr
    · exact absurd rfl hne
    · rfl
  have hcond : ¬ (sc < 200 ∨ sc ≥ 300) := by omega
  simp [Core.Predict, Core.predictBody, Core.sendDataToAPI, hin, hne', hcond, hr]

/-- C4: for every call of the metrics server's `Predict` whose downstream
response has status in `[200,300)` and a body decodable into the expected
shape, `Predict` succeeds with `outputData` the JSON encoding of the
downstream `output` field and `status` the downstream `status` string. -/
theorem C4_success_passthrough (ctx : Nat) (client : HttpClient)
    (mn : String) (inp : InputBytes) (arr : List String)
    (sc : Nat) (body : Body) (r : APIResponse)
    (hin : unmarshalInput inp = some arr) (hne : arr ≠ [])
    (hsc : 200 ≤ sc ∧ sc < 300)
    (hr : unmarshalAPIResponse body = some r) :
    (Core.Predict ctx client mn inp (DownstreamResult.response sc body)).reply =
      PredictOutcome.reply ⟨marshalFloats r.output, r.status⟩ :=
  Core.Predict_success_reply ctx client mn inp arr sc body r hin hne hsc hr

/-- Witness for C4: the spec's scenario — input `[1.0, 2.0, 3.0]`,
downstream HTTP 200 with body
`\x7b"model_name":"m","output":[0.9],"status":"ok"\x7d` — yields
`outputData = "[0.9]"` and `status = "ok"`. -/
theorem C4_witness :
    unmarshalInput (InputBytes.valid
      (Json.arr [Json.num "1.0", Json.num "2.0", Json.num "3.0"])) =
        some ["1.0", "2.0", "3.0"] ∧
    (["1.0", "2.0", "3.0"] : List String) ≠ [] ∧
    (200 ≤ 200 ∧ 200 < 300) ∧
    unmarshalAPIResponse (Body.valid (Json.obj
      [("model_name", Json.str "m"), ("output", Json.arr [Json.num "0.9"]),
       ("status", Json.str "ok")])) = some ⟨"m", some ["0.9"], "ok"⟩ ∧
    (Core.Predict 0 mainHttpClient "m"
      (InputBytes.valid (Json.arr [Json.num "1.0", Json.num "2.0", Json.num "3.0"]))
      (DownstreamResult.response 200 (Body.valid (Json.obj
        [("model_name", Json.str "m"), ("output", Json.arr [Json.num "0.9"]),
         ("status", Json.str "ok")])))).reply =
      PredictOutcome.reply ⟨"[0.9]", "ok"⟩ :=
  ⟨rfl, by decide, by decide, rfl,
   C4_success_passthrough 0 mainHttpClient "m"
     (InputBytes.valid (Json.arr [Json.num "1.0", Json.num "2.0", Json.num "3.0"]))
     ["1.0", "2.0", "3.0"] 200
     (Body.valid (Json.obj
       [("model_name", Json.str "m"), ("output", Json.arr [Json.num "0.9"]),
        ("status", Json.str "ok")]))
     ⟨"m", some ["0.9"], "ok"⟩ rfl (by decide) (by decide) rfl⟩

/-- C10: for every downstream response with status in `[200,300)` whose body
is a JSON object missing the `output` and `status` fields, `Predict` of the
metrics server succeeds with `outputData = "null"` (the JSON encoding of a
nil output slice) and an empty `status`; field presence is not validated
beyond JSON decodability. -/
theorem C10_missing_fields_passthrough (ctx : Nat) (client : HttpClient)
    (mn : String) (inp : InputBytes) (arr : List String)
    (sc : Nat) (fs : List (String × Json)) (mn' : String)
    (hin : unmarshalInput inp = some arr) (hne : arr ≠ [])
    (hsc : 200 ≤ sc ∧ sc < 300)
    (hmn : decodeStrField (lookupField fs "model_name") = some mn')
    (hout : lookupField fs "output" = none)
    (hst : lookupField fs "status" = none) :
    (Core.Predict ctx client mn inp
      (DownstreamResult.response sc (Body.valid (Json.obj fs)))).reply =
      PredictOutcome.reply ⟨"null", ""⟩ := by
  have hr : unmarshalAPIResponse (Body.valid (Json.obj fs)) =
      some ⟨mn', none, ""⟩ := by
    simp only [unmarshalAPIResponse, hmn, hout, hst]
    simp [decodeNumsField, decodeStrField]
  have h := Core.Predict_success_reply ctx client mn inp arr sc
    (Body.valid (Json.obj fs)) ⟨mn', none, ""⟩ hin hne hsc hr
  simpa [marshalFloats] using h

/-- Witness for C10: body `\x7b\x7d` with downstream HTTP 200 yields
`outputData = "null"` and `status = ""`. -/
theorem C10_witness :
    unmarshalInput (InputBytes.valid (Json.arr [Json.num "1"])) = some ["1"] ∧
    (["1"] : List String) ≠ [] ∧
    (200 ≤ 200 ∧ 200 < 300) ∧
    decodeStrField (lookupField [] "model_name") = some "" ∧
    lookupField [] "output" = none ∧
    lookupField [] "status" = none ∧
    (Core.Predict 0 mainHttpClient "m"
      (InputBytes.valid (Json.arr [Json.num "1"]))
      (DownstreamResult.response 200 (Body.valid (Json.obj [])))).reply =
      PredictOutcome.reply ⟨"null", ""⟩ :=
  ⟨rfl, by decide, by decide, rfl, rfl, rfl,
   C10_missing_fields_passthrough 0 mainHttpClient "m"
     (InputBytes.valid (Json.arr [Json.num "1"])) ["1"] 200 [] ""
     rfl (by decide) (by decide) rfl rfl rfl⟩

/-- C1 (evaluation at the failing inputs): `sendDataToAPI` of the metrics
server classifies a downstream 404 as `InvalidArgument` and a 503 as
`Internal`, exactly as its mapping comment documents, but `Predict` re-wraps
every `sendDataToAPI` error with `codes.Unavailable`, so the caller-visible
code is `Unavailable` in both cases — not the status-code-driven one. -/
theorem C1_unavailable_clobbers_classification :
    (Core.sendDataToAPI 0 mainHttpClient ⟨"m", ["1.0"]⟩
      (DownstreamResult.response 404 (Body.invalid "not found"))).2 =
      SendOutcome.failure
        ⟨GrpcCode.invalidArgument, "API returned status 404: not found"⟩ ∧
    (Core.sendDataToAPI 0 mainHttpClient ⟨"m", ["1.0"]⟩
      (DownstreamResult.response 503 (Body.invalid "oops"))).2 =
      SendOutcome.failure
        ⟨GrpcCode.internal, "API returned status 503: oops"⟩ ∧
    (Core.Predict 0 mainHttpClient "m"
      (InputBytes.valid (Json.arr [Json.num "1.0"]))
      (DownstreamResult.response 404 (Body.invalid "not found"))).errCode =
      some GrpcCode.unavailable ∧
    (Core.Predict 0 mainHttpClient "m"
      (InputBytes.valid (Json.arr [Json.num "1.0"]))
      (DownstreamResult.response 503 (Body.invalid "oops"))).errCode =
      some GrpcCode.unavailable ∧
    GrpcCode.unavailable ≠ GrpcCode.invalidArgument ∧
    GrpcCode.unavailable ≠ GrpcCode.internal :=
  ⟨rfl, rfl, rfl, rfl, by decide, by decide⟩

/-- C8 (counterexample): in the shutdown sequence of `main` the graceful
stop of the RPC listener is initiated only after the metrics/health-listener
shutdown call has returned — not concurrently with it. -/
theorem C8_counterexample :
    ¬ eventIdx (mainShutdownTrace false) isGrpcStart <
        eventIdx (mainShutdownTrace false) isHttpDone := by
  decide

/-- C8 (amended): on receipt of an interrupt/terminate signal the process
first shuts the metrics/health listener down with a 10-second grace period,
then — sequentially, after that call returns — initiates the graceful stop
of the RPC listener with its own 10-second grace period escalating to a
forced stop, and exits only after both listeners have stopped. -/
theorem C8_sequential_shutdown (g : Bool) :
    eventIdx (mainShutdownTrace g) isSignal <
      eventIdx (mainShutdownTrace g) isHttpStart ∧
    eventIdx (mainShutdownTrace g) isHttpStart <
      eventIdx (mainShutdownTrace g) isHttpDone ∧
    eventIdx (mainShutdownTrace g) isHttpDone <
      eventIdx (mainShutdownTrace g) isGrpcStart ∧
    eventIdx (mainShutdownTrace g) isGrpcStart <
      eventIdx (mainShutdownTrace g) isGrpcStopped ∧
    eventIdx (mainShutdownTrace g) isGrpcStopped <
      eventIdx (mainShutdownTrace g) isExit ∧
    ShutdownEvent.httpShutdownStart 10 ∈ mainShutdownTrace g ∧
    ShutdownEvent.grpcGracefulStart 10 ∈ mainShutdownTrace g ∧
    ShutdownEvent.grpcStopped g ∈ mainShutdownTrace g ∧
    (mainShutdownTrace g).getLast? = some ShutdownEvent.processExit := by
  cases g <;> decide

/-- Both variants of `sendDataToAPI` agree on the variant-independent view
of their outcome: same decoded response on success, failure together, panic
together (only codes and messages of the failures differ). -/
theorem sendView_eq (ctx : Nat) (client : HttpClient) (d : InputData)
    (ds : DownstreamResult) :
    (Core.sendDataToAPI ctx client d ds).2.view =
      (Cmd.sendDataToAPI ctx client d ds).2.view := by
  cases ds with
  | transportError e => rfl
  | readError e => rfl
  | panicked i => rfl
  | response sc body =>
      by_cases hc : (sc < 200 ∨ sc ≥ 300)
      · by_cases h4 : (sc ≥ 400 ∧ sc < 500) <;>
          simp [Core.sendDataToAPI, Cmd.sendDataToAPI, hc, h4, SendOutcome.view]
      · rcases hdec : unmarshalAPIResponse body with _ | r <;>
          simp [Core.sendDataToAPI, Cmd.sendDataToAPI, hc, hdec, SendOutcome.view]

/-- C9 (counterexample): at the input `[]` the two `Predict` implementations
are not extensionally equal — the metrics server rejects with
`InvalidArgument` and performs no downstream call, while the cmd/server
variant (whose emptiness check is commented out) issues one downstream call
and returns a success reply. -/
theorem C9_counterexample :
    (Core.Predict 0 mainHttpClient "m" (InputBytes.valid (Json.arr []))
      (DownstreamResult.response 200 (Body.valid Json.null))).calls.length = 0 ∧
    (Cmd.Predict 0 mainHttpClient "m" (InputBytes.valid (Json.arr []))
      (DownstreamResult.response 200 (Body.valid Json.null))).calls.length = 1 ∧
    (Core.Predict 0 mainHttpClient "m" (InputBytes.valid (Json.arr []))
      (DownstreamResult.response 200 (Body.valid Json.null))).reply.view =
      CallerView.errCode GrpcCode.invalidArgument ∧
    (Cmd.Predict 0 mainHttpClient "m" (InputBytes.valid (Json.arr []))
      (DownstreamResult.response 200 (Body.valid Json.null))).reply.view =
      CallerView.reply ⟨"null", ""⟩ ∧
    (0 : Nat) ≠ 1 ∧
    CallerView.errCode GrpcCode.invalidArgument ≠
      CallerView.reply (⟨"null", ""⟩ : PredictResponse) :=
  ⟨rfl, rfl, rfl, rfl, by decide, by decide⟩

/-- C9 (amended): except on inputs decoding to the empty array, the two
`Predict` implementations are extensionally equal — same caller-visible
reply or error code (and panic value) and the same downstream calls. -/
theorem C9_equiv_off_empty (ctx : Nat) (client : HttpClient) (mn : String)
    (inp : InputBytes) (ds : DownstreamResult)
    (h : unmarshalInput inp ≠ some []) :
    (Core.Predict ctx client mn inp ds).reply.view =
      (Cmd.Predict ctx client mn inp ds).reply.view ∧
    (Core.Predict ctx client mn inp ds).calls =
      (Cmd.Predict ctx client mn inp ds).calls := by
  rcases hin : unmarshalInput inp with _ | arr
  · constructor <;>
      simp [Core.Predict, Core.predictBody, Cmd.Predict, hin, PredictOutcome.view]
  · have hne : arr ≠ [] := fun he => h (he ▸ hin)
    have hne' : arr.isEmpty = false := by
      cases arr
      · exact absurd rfl hne
      · rfl
    have hview := sendView_eq ctx client ⟨mn, arr⟩ ds
    have hfstC := Core.sendDataToAPI_calls_eq ctx client ⟨mn, arr⟩ ds
    have hfstM := Cmd.sendDataToAPICmd_calls_eq ctx client ⟨mn, arr⟩ ds
    rcases hsC : Core.sendDataToAPI ctx client ⟨mn, arr⟩ ds with ⟨cC, rC⟩
    rcases hsM : Cmd.sendDataToAPI ctx client ⟨mn, arr⟩ ds with ⟨cM, rM⟩
    rw [hsC] at hview hfstC
    rw [hsM] at hview hfstM
    have hcalls : cC = cM := by simpa using hfstC.trans hfstM.symm
    cases rC <;> cases rM <;>
      simp only [SendOutcome.view, SendView.success.injEq,
        SendView.panicked.injEq, reduceCtorEq] at hview <;>
      (try subst hview) <;>
      (constructor <;>
        simp [Core.Predict, Core.predictBody, Cmd.Predict, hin, hne',
          hsC, hsM, hcalls, PredictOutcome.view])

/-- Witness for C9 (amended) at a concrete non-empty input. -/
theorem C9_witness :
    unmarshalInput (InputBytes.valid (Json.arr [Json.num "2"])) ≠ some [] ∧
    ((Core.Predict 3 mainHttpClient "m" (InputBytes.valid (Json.arr [Json.num "2"]))
       (DownstreamResult.response 200 (Body.valid Json.null))).reply.view =
     (Cmd.Predict 3 mainHttpClient "m" (InputBytes.valid (Json.arr [Json.num "2"]))
       (DownstreamResult.response 200 (Body.valid Json.null))).reply.view ∧
     (Core.Predict 3 mainHttpClient "m" (InputBytes.valid (Json.arr [Json.num "2"]))
       (DownstreamResult.response 200 (Body.valid Json.null))).calls =
     (Cmd.Predict 3 mainHttpClient "m" (InputBytes.valid (Json.arr [Json.num "2"]))
       (DownstreamResult.response 200 (Body.valid Json.null))).calls) :=
  ⟨by decide,
   C9_equiv_off_empty 3 mainHttpClient "m"
     (InputBytes.valid (Json.arr [Json.num "2"]))
     (DownstreamResult.response 200 (Body.valid Json.null)) (by decide)⟩

/-- C6 (counterexample): at downstream status 200 with the undecodable
one-byte bodies "q" and "z", the two `Predict` runs differ only in the
downstream error body yet produce different caller-visible error messages,
neither of which is the sanitized status-code-driven message — and the
first message even contains the whole raw body "q" verbatim, inside Go's
json syntax-error text. -/
theorem C6_counterexample :
    (Core.Predict 0 mainHttpClient "m" (InputBytes.valid (Json.arr [Json.num "1"]))
      (DownstreamResult.response 200 (Body.invalid "q"))).reply =
      PredictOutcome.err ⟨GrpcCode.unavailable,
        wrapMsg ⟨GrpcCode.internal,
          "Failed to parse external API response: " ++
            jsonParseErrText (Body.invalid "q")⟩⟩ ∧
    (Core.Predict 0 mainHttpClient "m" (InputBytes.valid (Json.arr [Json.num "1"]))
      (DownstreamResult.response 200 (Body.invalid "z"))).reply =
      PredictOutcome.err ⟨GrpcCode.unavailable,
        wrapMsg ⟨GrpcCode.internal,
          "Failed to parse external API response: " ++
            jsonParseErrText (Body.invalid "z")⟩⟩ ∧
    wrapMsg ⟨GrpcCode.internal, "Failed to parse external API response: " ++
        jsonParseErrText (Body.invalid "q")⟩ ≠
      wrapMsg ⟨GrpcCode.internal, "Failed to parse external API response: " ++
        jsonParseErrText (Body.invalid "z")⟩ ∧
    wrapMsg ⟨GrpcCode.internal, "Failed to parse external API response: " ++
        jsonParseErrText (Body.invalid "q")⟩ ≠
      wrapMsg ⟨apiStatusCode 200, apiStatusMsg 200 (Body.invalid "q")⟩ ∧
    wrapMsg ⟨GrpcCode.internal, "Failed to parse external API response: " ++
        jsonParseErrText (Body.invalid "z")⟩ ≠
      wrapMsg ⟨apiStatusCode 200, apiStatusMsg 200 (Body.invalid "z")⟩ ∧
    (Body.invalid "q").text.data ⊆ (wrapMsg ⟨GrpcCode.internal,
      "Failed to parse external API response: " ++
        jsonParseErrText (Body.invalid "q")⟩).data :=
  ⟨rfl, rfl, by decide, by decide, by decide, by decide⟩

/-- C6 (amended): for two failing runs of the metrics server's `Predict`
that differ only in the downstream response body (same caller input, same
downstream status), the caller-visible error messages are identical unless
they are (a) the wrap of the sanitized status-code-driven message, which
embeds the body by design, or (b) the wrap of the parse-failure message of
a 2xx undecodable body, which embeds Go's body-derived json error text —
so body-derived bytes (for a one-byte body, the whole raw body) reach the
caller on that path too. -/
theorem C6_body_dependence_classified (ctx : Nat) (client : HttpClient)
    (mn : String) (inp : InputBytes) (sc : Nat) (b1 b2 : Body)
    (e1 e2 : GrpcError)
    (h1 : (Core.Predict ctx client mn inp
      (DownstreamResult.response sc b1)).reply = PredictOutcome.err e1)
    (h2 : (Core.Predict ctx client mn inp
      (DownstreamResult.response sc b2)).reply = PredictOutcome.err e2) :
    e1.msg = e2.msg ∨
      (e1.msg = wrapMsg ⟨apiStatusCode sc, apiStatusMsg sc b1⟩ ∧
       e2.msg = wrapMsg ⟨apiStatusCode sc, apiStatusMsg sc b2⟩) ∨
      (e1.msg = wrapMsg ⟨GrpcCode.internal,
         "Failed to parse external API response: " ++ jsonParseErrText b1⟩ ∧
       e2.msg = wrapMsg ⟨GrpcCode.internal,
         "Failed to parse external API response: " ++ jsonParseErrText b2⟩) := by
  rcases hin : unmarshalInput inp with _ | arr
  · left
    simp [Core.Predict, Core.predictBody, hin] at h1 h2
    rw [← h1, ← h2]
  · rcases arr with _ | ⟨a, l⟩
    · left
      simp [Core.Predict, Core.predictBody, hin] at h1 h2
      rw [← h1, ← h2]
    · by_cases hc : sc < 200 ∨ sc ≥ 300
      · right; left
        by_cases h4 : sc ≥ 400 ∧ sc < 500 <;>
          (simp [Core.Predict, Core.predictBody, Core.sendDataToAPI, hin,
            hc, h4] at h1 h2;
           simp [← h1, ← h2, wrapMsg, apiStatusCode, apiStatusMsg, h4])
      · rcases hd1 : unmarshalAPIResponse b1 with _ | r1
        · rcases hd2 : unmarshalAPIResponse b2 with _ | r2
          · right; right
            simp [Core.Predict, Core.predictBody, Core.sendDataToAPI, hin,
              hc, hd1, hd2] at h1 h2
            simp [← h1, ← h2, wrapMsg]
          · exfalso
            simp [Core.Predict, Core.predictBody, Core.sendDataToAPI, hin,
              hc, hd2] at h2
        · exfalso
          simp [Core.Predict, Core.predictBody, Core.sendDataToAPI, hin,
            hc, hd1] at h1

/-- Witness for C6 (amended): two runs with downstream 500 and differing
error bodies both surface the wrapped sanitized status-code message. -/
theorem C6_witness :
    (Core.Predict 0 mainHttpClient "m" (InputBytes.valid (Json.arr [Json.num "1"]))
      (DownstreamResult.response 500 (Body.invalid "x"))).reply =
      PredictOutcome.err ⟨GrpcCode.unavailable,
        wrapMsg ⟨apiStatusCode 500, apiStatusMsg 500 (Body.invalid "x")⟩⟩ ∧
    (Core.Predict 0 mainHttpClient "m" (InputBytes.valid (Json.arr [Json.num "1"]))
      (DownstreamResult.response 500 (Body.invalid "y"))).reply =
      PredictOutcome.err ⟨GrpcCode.unavailable,
        wrapMsg ⟨apiStatusCode 500, apiStatusMsg 500 (Body.invalid "y")⟩⟩ ∧
    ((GrpcError.mk GrpcCode.unavailable
        (wrapMsg ⟨apiStatusCode 500, apiStatusMsg 500 (Body.invalid "x")⟩)).msg =
      (GrpcError.mk GrpcCode.unavailable
        (wrapMsg ⟨apiStatusCode 500, apiStatusMsg 500 (Body.invalid "y")⟩)).msg ∨
     ((GrpcError.mk GrpcCode.unavailable
        (wrapMsg ⟨apiStatusCode 500, apiStatusMsg 500 (Body.invalid "x")⟩)).msg =
          wrapMsg ⟨apiStatusCode 500, apiStatusMsg 500 (Body.invalid "x")⟩ ∧
      (GrpcError.mk GrpcCode.unavailable
        (wrapMsg ⟨apiStatusCode 500, apiStatusMsg 500 (Body.invalid "y")⟩)).msg =
          wrapMsg ⟨apiStatusCode 500, apiStatusMsg 500 (Body.invalid "y")⟩) ∨
     ((GrpcError.mk GrpcCode.unavailable
        (wrapMsg ⟨apiStatusCode 500, apiStatusMsg 500 (Body.invalid "x")⟩)).msg =
          wrapMsg ⟨GrpcCode.internal, "Failed to parse external API response: " ++
            jsonParseErrText (Body.invalid "x")⟩ ∧
      (GrpcError.mk GrpcCode.unavailable
        (wrapMsg ⟨apiStatusCode 500, apiStatusMsg 500 (Body.invalid "y")⟩)).msg =
          wrapMsg ⟨GrpcCode.internal, "Failed to parse external API response: " ++
            jsonParseErrText (Body.invalid "y")⟩)) :=
  ⟨rfl, rfl,
   C6_body_dependence_classified 0 mainHttpClient "m"
     (InputBytes.valid (Json.arr [Json.num "1"])) 500
     (Body.invalid "x") (Body.invalid "y") _ _ rfl rfl⟩
